import Mathlib

/-
Verification of the playback orchestrator of the ha_ncloud_music
integration (custom_components/ha_ncloud_music), against its
natural-language specification.

The development is a shallow embedding of the Python sources:

* media_player.py   — class CloudMusicMediaPlayer (state, tick handler,
                      shuffle, FM radio mode)
* browse_media.py   — module-level async_play_media /
                      async_media_next_track / async_media_previous_track
                      (playlist resolution and advance)
* const.py          — FM_MODES, DEFAULT_NEXT_TRACK_TIMING

The entity object self.cloud_music exposes the browse_media module
functions as methods with identical signatures
(cloud_music.async_play_media(self, cloud_music, media_id) and
cloud_music.async_media_next_track(self, shuffle)); the call sites in
media_player.py and the functions in browse_media.py match one to one.

Python attribute names map to Lean fields as follows:
  _attr_shuffle → shuffle, playlist (attribute presence → hasPlaylist),
  _playlist_origin → origin, _playlist_active → active,
  _play_index → playIdx, _is_fm_playing → isFm, _fm_mode → fmMode,
  _fm_preloading → fmPreloading, _next_track_scheduled → nextScheduled,
  _attr_state → state, _attr_media_position → pos,
  _attr_media_duration → dur, _last_position_update (None or a
  timestamp; only which of the two matters) → lastPosUpdate,
  before_state → beforeState, _current_song_id → currentSongId,
  _next_track_timing → timing.

Nondeterminism (random.shuffle, random.randint) and external catalogue
I/O (track fetches, the fm_trash feedback call) are passed in as
oracle parameters, so every definition stays executable.
-/

namespace NCloudMusic

/-- A track record (the MusicInfo objects produced by the catalogue
client).  Only the fields the orchestrator core reads are kept:
id (identity for dedup), duration (declared duration used by the
clock), url (the stream url used for play commands and the FM
internal-play check).  Python object equality is modelled as
structural equality; all concrete tests use pairwise distinct
tracks, where the two coincide. -/
structure MusicInfo where
  id : Nat
  duration : Nat
  url : String
  deriving DecidableEq, Repr

/-- The _attr_state values that the orchestrator writes
(STATE_ON initially, STATE_PLAYING, STATE_PAUSED). -/
inductive PState
  | stOn
  | playing
  | paused
  deriving DecidableEq, Repr

/-- The dict stored in self.before_state (media_player.py:185-189).
Only media_position and media_duration are ever read back. -/
structure BeforeState where
  bsPos : Nat
  bsDur : Nat
  deriving DecidableEq, Repr

/-- The mutable state of one CloudMusicMediaPlayer instance
(media_player.py:59-98 plus the dynamically added attributes). -/
structure MState where
  shuffle : Bool
  hasPlaylist : Bool
  playlist : List MusicInfo
  origin : List MusicInfo
  active : List MusicInfo
  playIdx : Nat
  isFm : Bool
  fmMode : Option String
  fmPreloading : Bool
  nextScheduled : Bool
  state : PState
  pos : Nat
  dur : Nat
  lastPosUpdate : Bool
  beforeState : Option BeforeState
  currentSongId : Option Nat
  timing : ℚ
  deriving DecidableEq, Repr

/-- Initial state after __init__ (media_player.py:59-98): no playlist
attribute yet, empty origin/active lists, index 0, FM off, shuffle
off, state STATE_ON. -/
def initState (timing : ℚ) : MState :=
  { shuffle := false
    hasPlaylist := false
    playlist := []
    origin := []
    active := []
    playIdx := 0
    isFm := false
    fmMode := none
    fmPreloading := false
    nextScheduled := false
    state := .stOn
    pos := 0
    dur := 0
    lastPosUpdate := false
    beforeState := none
    currentSongId := none
    timing := timing }

/-- Duration conversion applied to a declared track duration at
media_player.py:127, 338 and 615:
int(d / 1000) if d > 1000 else int(d).
For natural-number millisecond values int(d / 1000) equals floor
division by 1000 (the float quotient rounds to a value whose
truncation agrees with exact floor division for all realistic
durations). -/
def computeDuration (d : Nat) : Nat :=
  if 1000 < d then d / 1000 else d

/-- The playindex property getter (media_player.py:210-220): in
shuffle mode, look up the current active-order song in the original
playlist (falling back to _play_index on any lookup failure);
otherwise return _play_index.  The setter (media_player.py:222-225)
is pass, i.e. a no-op, so no operation in this file ever writes
playIdx through it. -/
def playindex (s : MState) : Nat :=
  if s.shuffle then
    match s.active[s.playIdx]? with
    | some song =>
      match s.playlist.findIdx? (fun t => t == song) with
      | some i => i
      | none => s.playIdx
    | none => s.playIdx
  else s.playIdx

/-- Contiguous-sublist test on character lists. -/
def charsIn (small : List Char) : List Char → Bool
  | [] => small.isEmpty
  | b :: bs => small.isPrefixOf (b :: bs) || charsIn small bs

/-- Python substring containment (a in b) on strings. -/
def strIn (a b : String) : Bool :=
  charsIn a.toList b.toList

/-- exit_fm_mode (media_player.py:700-706). -/
def exitFmMode (s : MState) : MState :=
  if s.isFm then
    { s with isFm := false, fmMode := none, fmPreloading := false }
  else s

/-- The FM internal-play check of async_play_media
(media_player.py:284-292): media_id counts as internal when some
playlist song has a non-empty url that contains, or is contained in,
media_id. -/
def fmInternalMatch (s : MState) (mediaId : String) : Bool :=
  s.playlist.any fun song =>
    song.url ≠ "" && mediaId ≠ "" &&
      (strIn song.url mediaId || strIn mediaId song.url)

/-- First half of async_play_media (media_player.py:273-298): pause,
reset the position clock and the advance guard, and exit FM mode when
the played media id is not part of the current FM playlist. -/
def playCommonPre (s : MState) (mediaId : String) : MState :=
  let s := { s with
    state := .paused
    pos := 0
    lastPosUpdate := false
    nextScheduled := false }
  let internal :=
    s.isFm && s.hasPlaylist && !s.playlist.isEmpty && fmInternalMatch s mediaId
  if s.isFm && !internal then exitFmMode s else s

/-- Tail of async_play_media (media_player.py:321-345): issue the play
command, mark playing, refresh metadata (duration via computeDuration
when the declared duration is positive, and the current song id) from
playlist[playindex], and clear before_state. -/
def playCommonPost (s : MState) : MState :=
  let s := { s with state := .playing }
  let s :=
    if s.hasPlaylist && !s.playlist.isEmpty then
      match s.playlist[playindex s]? with
      | some m =>
        let s :=
          if 0 < m.duration then
            { s with dur := computeDuration m.duration }
          else s
        { s with currentSongId := some m.id }
      | none => s
    else s
  { s with beforeState := none }

/-- async_play_media (media_player.py:271-345) for a plain stream url
(the case reached from async_media_next_track and friends):
cloud_music.async_play_media returns None for a non-cloudmusic media
id (browse_media.py:904-905), so only the common pre/post phases run. -/
def mpPlayUrl (s : MState) (u : String) : MState :=
  playCommonPost (playCommonPre s u)

/-- async_play_media for a cloudmusic media id that resolves to a new
playlist: browse_media.py:1024-1027 assigns media_player.playindex
(a no-op, as the setter is pass) and media_player.playlist, returns
'playlist', and the entity then plays the selected first track and
runs the common tail.  Note that _playlist_origin and
_playlist_active are not touched by this path. -/
def mpLoadPlaylist (s : MState) (mediaId : String)
    (tracks : List MusicInfo) : MState :=
  let s := playCommonPre s mediaId
  let s := { s with hasPlaylist := true, playlist := tracks }
  playCommonPost s

/-- The avoid count of _smart_shuffle (media_player.py:401):
min(5, max(1, int(playlist_len * 0.4))).  For natural n,
int(n * 0.4) equals floor(2n/5): the float product n * 0.4 differs
from the exact value 2n/5 by at most n * 2.3e-17, far below the 0.2
distance of any non-integral exact value to the next integer, and
rounds to the exact value whenever that value is an integer. -/
def avoidCountOf (n : Nat) : Nat :=
  min 5 (max 1 (2 * n / 5))

/-- Candidate sequence produced by successive random.shuffle calls
inside one _smart_shuffle run.  The oracle σ gives the outcome of the
k-th shuffle call on its input list; each call shuffles the list in
place, so candidate k+1 is σ (k+1) applied to candidate k, and the
first call works on list(self._playlist_origin). -/
def shuffleCandidates (σ : Nat → List MusicInfo → List MusicInfo)
    (l0 : List MusicInfo) : Nat → List MusicInfo
  | 0 => σ 0 l0
  | k + 1 => σ (k + 1) (shuffleCandidates σ l0 k)

/-- The overlap test of _smart_shuffle (media_player.py:439):
any(song in last_songs for song in first_songs). -/
def hasOverlap (first lastSongs : List MusicInfo) : Bool :=
  first.any fun song => lastSongs.contains song

/-- The retry loop of _smart_shuffle (media_player.py:427-461):
starting from candidate k with fuel remaining retries, accept the
current candidate when its first avoid tracks do not overlap
lastSongs, otherwise reshuffle; when the fuel runs out the current
candidate is accepted without a further check. -/
def smartRetryLoop (lastSongs : List MusicInfo) (avoid : Nat)
    (cand : Nat → List MusicInfo) : Nat → Nat → List MusicInfo
  | k, 0 => cand k
  | k, fuel + 1 =>
    if hasOverlap ((cand k).take avoid) lastSongs then
      smartRetryLoop lastSongs avoid cand (k + 1) fuel
    else cand k

/-- _smart_shuffle (media_player.py:361-465): playlists of length ≤ 3
get a single unconstrained shuffle; longer playlists avoid repeating
the last avoidCountOf tracks of the previous active order at the
front, with at most 10 reshuffles.  The list being shuffled is
_playlist_origin. -/
def smartShuffle (s : MState)
    (σ : Nat → List MusicInfo → List MusicInfo) : List MusicInfo :=
  let n := s.origin.length
  if n ≤ 3 then σ 0 s.origin
  else
    let avoid := avoidCountOf n
    let lastSongs :=
      if !s.active.isEmpty then s.active.drop (s.active.length - avoid)
      else []
    let cand := shuffleCandidates σ s.origin
    if lastSongs.isEmpty then cand 0
    else smartRetryLoop lastSongs avoid cand 0 10

/-- The error raised by async_set_shuffle in FM mode
(media_player.py:482, a HomeAssistantError surfaced to the user). -/
inductive ShuffleError
  | invalidShuffleWhileRadio
  deriving DecidableEq, Repr

/-- The in-place swap active[0], active[i] = active[i], active[0]
(media_player.py:524-525). -/
def listSwapHead (l : List MusicInfo) (i : Nat) : List MusicInfo :=
  match l[0]?, l[i]? with
  | some a, some b => (l.set 0 b).set i a
  | _, _ => l

/-- async_set_shuffle (media_player.py:468-553).  In FM mode an
enable request is intercepted: the flag is forced back to False and a
user-visible error is raised.  Otherwise the flag is stored; with a
playlist present, enabling rebuilds the active order via
_smart_shuffle and swaps the current song to index 0, and disabling
restores the original order and relocates the index to the current
song (keeping _play_index when it is no longer present). -/
def setShuffle (s : MState) (sh : Bool)
    (σ : Nat → List MusicInfo → List MusicInfo) :
    MState × Option ShuffleError :=
  if s.isFm && sh then
    ({ s with shuffle := false }, some .invalidShuffleWhileRadio)
  else
    let s := { s with shuffle := sh }
    if !s.hasPlaylist || s.playlist.isEmpty then (s, none)
    else
      let curOpt :=
        match s.active[s.playIdx]? with
        | some t => some t
        | none => s.playlist.head?
      match curOpt with
      | none => (s, none)
      | some cur =>
        if sh then
          let act := smartShuffle s σ
          match act.findIdx? (fun t => t == cur) with
          | some i =>
            let act := if i ≠ 0 then listSwapHead act i else act
            ({ s with active := act, playIdx := 0 }, none)
          | none =>
            ({ s with active := act, playIdx := 0 }, none)
        else
          let act := s.playlist
          let idx :=
            match act.findIdx? (fun t => t == cur) with
            | some i => i
            | none => s.playIdx
          ({ s with active := act, playIdx := idx }, none)

/-- The keys of FM_MODES (const.py:85-93). -/
def fmModeNames : List String :=
  ["默认推荐", "AI DJ", "熟悉的歌", "探索新歌", "运动模式", "专注模式", "夜晚情绪"]

/-- async_play_fm (media_player.py:558-627), with the catalogue fetch
async_get_personal_fm_mode passed in as the oracle parameter fetch.
An unknown or missing mode name falls back to 默认推荐.  FM mode is
entered up front (shuffle forced off); an empty fetch backs out of FM
mode and leaves the playlist state untouched; a non-empty fetch
replaces playlist/_playlist_origin/_playlist_active, resets the
index and the clock, and plays the first track. -/
def playFm (s : MState) (modeName : Option String)
    (fetch : List MusicInfo) : MState :=
  let name := modeName.getD "默认推荐"
  let name := if fmModeNames.contains name then name else "默认推荐"
  let s := { s with isFm := true, fmMode := some name }
  let s := if s.shuffle then { s with shuffle := false } else s
  match fetch with
  | [] => { s with isFm := false, fmMode := none }
  | first :: _ =>
    let s := { s with
      hasPlaylist := true
      playlist := fetch
      origin := fetch
      active := fetch
      playIdx := 0
      state := .playing
      pos := 0
      lastPosUpdate := false
      nextScheduled := false
      currentSongId := some first.id }
    let s :=
      if 0 < first.duration then
        { s with dur := computeDuration first.duration }
      else s
    { s with beforeState := none }

/-- _async_preload_fm_tracks (media_player.py:628-670), with the
refill fetch as the oracle parameter.  Returns the new state and
whether a refill fetch was issued.  No fetch happens unless FM mode
is active, no preload is in flight, the mode name is known, and at
most 2 unseen tracks remain (len(playlist) - _play_index - 1; the
Python value can be negative, which the Nat subtraction clamps to 0
without changing the ≤ 2 decision).  Fetched tracks whose id is
already in the playlist are filtered out; the unique remainder is
appended to playlist, origin and active.  _fm_preloading is set
around the fetch and back to False at the end, leaving no net
change. -/
def preloadFm (s : MState) (fetch : List MusicInfo) : MState × Bool :=
  if !s.isFm || s.fmPreloading then (s, false)
  else if !(match s.fmMode with
            | some m => fmModeNames.contains m
            | none => false) then (s, false)
  else if 2 < s.playlist.length - s.playIdx - 1 then (s, false)
  else if !fetch.isEmpty then
    let existing := s.playlist.map (·.id)
    let uniq := fetch.filter fun t => !existing.contains t.id
    ({ s with
        playlist := s.playlist ++ uniq
        origin := s.origin ++ uniq
        active := s.active ++ uniq }, true)
  else (s, true)

/-- The index chosen by browse_media.async_media_next_track
(browse_media.py:1054-1062): a random index under shuffle (the
oracle rand stands for random.randint(0, count-1)), otherwise
playindex + 1 wrapped to 0 at the end of the playlist. -/
def browseNextIndex (s : MState) (rand : Nat) : Nat :=
  if s.shuffle then rand
  else
    let i := playindex s + 1
    if s.playlist.length ≤ i then 0 else i

/-- Result of an entity-level next-track call: the new state, the
track whose url was sent to the device (if any), and whether an FM
refill fetch was issued. -/
structure NextResult where
  st : MState
  played : Option MusicInfo
  fetched : Bool
  deriving Repr

/-- Entity async_media_next_track (media_player.py:709-715) composed
with browse_media.async_media_next_track (browse_media.py:1050-1064):
pause, pick the next index, assign media_player.playindex (a no-op,
since the setter at media_player.py:222-225 is pass), play that
track's url through async_play_media, then run the FM preload check
when FM mode is still active. -/
def mpNextTrack (s : MState) (rand : Nat)
    (fmFetch : List MusicInfo) : NextResult :=
  let s := { s with state := .paused }
  if !s.hasPlaylist then ⟨s, none, false⟩
  else
    match s.playlist[browseNextIndex s rand]? with
    | none => ⟨s, none, false⟩
    | some tr =>
      let s := mpPlayUrl s tr.url
      if s.isFm then
        let (s2, f) := preloadFm s fmFetch
        ⟨s2, some tr, f⟩
      else ⟨s, some tr, false⟩

/-- Result of async_fm_trash: the new state, the song id reported to
the catalogue trash API (if the call was made), whether the player
advanced, and whether the success notification was shown. -/
structure TrashResult where
  st : MState
  reported : Option Nat
  advanced : Bool
  notified : Bool
  deriving Repr

/-- async_fm_trash (media_player.py:672-698), with the outcome of the
cloud_music.async_fm_trash feedback call passed in as success, and
the advance oracles forwarded to mpNextTrack.  Outside FM mode or
without a current song id nothing happens; otherwise the feedback is
reported and the player advances to the next track whether or not
the feedback call succeeded; the notification alone depends on
success. -/
def fmTrash (s : MState) (success : Bool) (rand : Nat)
    (fmFetch : List MusicInfo) : TrashResult :=
  if !s.isFm then ⟨s, none, false, false⟩
  else
    match s.currentSongId with
    | none => ⟨s, none, false, false⟩
    | some sid =>
      let r := mpNextTrack s rand fmFetch
      ⟨r.st, some sid, true, success⟩

/-- What one tick observes on the underlying source media player:
whether hass.states.get finds it, its reported media_duration
attribute, and whether its transport state is STATE_OFF. -/
structure TickObs where
  playerExists : Bool
  playerDuration : Nat
  playerOff : Bool
  deriving DecidableEq, Repr

/-- The externally visible effect of one tick: scheduling an
immediate track advance (wait_time ≤ 0, media_player.py:162-166),
scheduling one after wait seconds (hass.loop.call_later,
media_player.py:167-172), or the defensive immediate advance when
the device reports off (media_player.py:175-182). -/
inductive TickAction
  | schedNow
  | schedLater (wait : ℚ)
  | offAdvance
  deriving DecidableEq, Repr

/-- Whether a tick action is an advance scheduled by the
threshold-window mechanism (as opposed to the defensive device-off
advance). -/
def isSchedAction : TickAction → Bool
  | .schedNow => true
  | .schedLater _ => true
  | .offAdvance => false

/-- Self-timed position update of the tick handler
(media_player.py:111-117): the first tick after a reset only fixes
the reference point and zeroes the position; later ticks add one
second. -/
def posIncr (s : MState) : MState :=
  if !s.lastPosUpdate then { s with lastPosUpdate := true, pos := 0 }
  else { s with pos := s.pos + 1 }

/-- Duration resolution of the tick handler (media_player.py:119-140):
prefer the playlist track's declared duration (converted by
computeDuration), fall back to the device-reported duration, and
keep the previous value when both are unavailable. -/
def durResolve (s : MState) (o : TickObs) : MState :=
  let playlistDur :=
    if s.hasPlaylist && !s.playlist.isEmpty then
      match s.playlist[playindex s]? with
      | some m => computeDuration m.duration
      | none => 0
    else 0
  if 0 < playlistDur then { s with dur := playlistDur }
  else if 0 < o.playerDuration then { s with dur := o.playerDuration }
  else s

/-- delta = duration - position as computed at media_player.py:145. -/
def tickDelta (s : MState) : ℚ :=
  (s.dur : ℚ) - (s.pos : ℚ)

/-- trigger_threshold = max(1, -timing + 1) (media_player.py:150). -/
def triggerThreshold (timing : ℚ) : ℚ :=
  max 1 (-timing + 1)

/-- Position and duration phase of one tick. -/
def tickMid (s : MState) (o : TickObs) : MState :=
  durResolve (posIncr s) o

/-- Decision phase of the tick handler (media_player.py:142-190):
inside the advance window (previous duration known, delta within the
threshold, duration > 1) schedule at most one advance, guarded by
_next_track_scheduled; otherwise handle the device-off fallback or
record before_state for the next tick. -/
def tickDecide (s : MState) (o : TickObs) : MState × Option TickAction :=
  match s.beforeState with
  | some bs =>
    if 0 < bs.bsDur ∧ tickDelta s ≤ triggerThreshold s.timing ∧ 1 < s.dur then
      if !s.nextScheduled then
        let wait := tickDelta s + s.timing
        let s := { s with nextScheduled := true }
        if wait ≤ 0 then (s, some .schedNow)
        else (s, some (.schedLater wait))
      else (s, none)
    else if o.playerOff && s.state == .playing then
      ({ s with state := .paused, beforeState := none }, some .offAdvance)
    else
      ({ s with beforeState := some ⟨s.pos, s.dur⟩ }, none)
  | none =>
    ({ s with beforeState := some ⟨s.pos, s.dur⟩ }, none)

/-- interval, the 1-second timer callback (media_player.py:101-203):
a no-op unless the entity believes it is playing; otherwise advance
the self-timed position, and if the source player is visible resolve
the duration and run the advance decision. -/
def interval (s : MState) (o : TickObs) : MState × Option TickAction :=
  if s.state ≠ .playing then (s, none)
  else if !o.playerExists then (posIncr s, none)
  else tickDecide (tickMid s o) o

/-- A sequence of ticks, collecting the emitted actions. -/
def tickTrace (s : MState) : List TickObs → MState × List TickAction
  | [] => (s, [])
  | o :: os =>
    let (s1, a) := interval s o
    let (s2, rest) := tickTrace s1 os
    (s2, a.toList ++ rest)

/-! Spec-side definitions (following the specification's words, for
comparison with the source embedding) and concrete test fixtures. -/

/-- The spec's intersection test between a candidate prefix and the
captured boundary set. -/
def specIntersects (a b : List MusicInfo) : Bool :=
  a.any fun t => b.contains t

/-- The claim's avoid count, taken literally: clamp(round(length *
0.4), 1, 5), with 0.4 read as the exact rational 2/5.  (For natural
n the fractional part of 2n/5 is never 1/2, so every rounding
convention agrees here.) -/
def specAvoidCountRound (n : Nat) : Nat :=
  min 5 (max 1 (round ((n : ℚ) * 2 / 5)).toNat)

/-- First accepted candidate index: starting at candidate k with a
given number of retries left, accept the first good candidate, or
the current one once the retries are exhausted. -/
def specFirstAccepted (good : Nat → Bool) : Nat → Nat → Nat
  | k, 0 => k
  | k, fuel + 1 => if good k then k else specFirstAccepted good (k + 1) fuel

/-- The boundary-aware shuffle exactly as claim C5 states it (with
round): avoidCount = clamp(round(length * 0.4), 1, 5), capture the
last avoidCount tracks of the previous active order, reshuffle while
the first avoidCount tracks intersect the captured set, at most 10
retries, then accept regardless. -/
def specBoundaryShuffleRound (origin active : List MusicInfo)
    (σ : Nat → List MusicInfo → List MusicInfo) : List MusicInfo :=
  let avoid := specAvoidCountRound origin.length
  let captured := active.drop (active.length - avoid)
  let cand := shuffleCandidates σ origin
  cand (specFirstAccepted
    (fun k => !specIntersects ((cand k).take avoid) captured) 0 10)

/-- A playable test track with the given id. -/
def song (n : Nat) : MusicInfo :=
  ⟨n, 180000, s!"http://stream/{n}"⟩

/-- A shuffle oracle that leaves every list unchanged: the identity
permutation, a legitimate outcome of random.shuffle. -/
def idShuffle : Nat → List MusicInfo → List MusicInfo :=
  fun _ l => l

/-- Fresh player that has loaded a three-track playlist through the
ordinary play path (browse_media resolution of kind playlist). -/
def loadedThree : MState :=
  mpLoadPlaylist (initState 0) "cloudmusic://163/playlist?id=1"
    [song 1, song 2, song 3]

/-- Fresh player that has loaded a five-track playlist through the
ordinary play path. -/
def loadedFive : MState :=
  mpLoadPlaylist (initState 0) "cloudmusic://163/playlist?id=1"
    [song 1, song 2, song 3, song 4, song 5]

/-- Fresh player that has started FM mode with a five-track batch. -/
def fmFive : MState :=
  playFm (initState 0) (some "AI DJ")
    [song 11, song 12, song 13, song 14, song 15]

/-- First, second and third FM advances after fmFive, with no further
catalogue results needed. -/
def fmStep1 : NextResult := mpNextTrack fmFive 0 []

def fmStep2 : NextResult := mpNextTrack fmStep1.st 0 []

def fmStep3 : NextResult := mpNextTrack fmStep2.st 0 []

/-- An FM state with a known current song id, for the trash test. -/
def fmWithCurrent : MState :=
  { fmFive with currentSongId := some 11 }

/-- A 200-second track for the clock tests. -/
def clockTrack : MusicInfo :=
  ⟨7, 200, "http://stream/7"⟩

/-- A playing state one tick before the advance window of a
200-second track (offset 0): the next tick moves the position to 199
and observes delta = 1. -/
def clockState : MState :=
  { initState 0 with
      state := .playing
      hasPlaylist := true
      playlist := [clockTrack]
      origin := [clockTrack]
      active := [clockTrack]
      pos := 198
      dur := 200
      lastPosUpdate := true
      beforeState := some ⟨198, 200⟩ }

/-- The same state after an advance has been scheduled. -/
def clockStateSched : MState :=
  { clockState with pos := 199, nextScheduled := true }

/-- A tick observation with the source player visible, no device
duration and the device not off. -/
def clockObs : TickObs :=
  ⟨true, 0, false⟩

/-- State whose previous active order is the identity order of four
tracks, for exercising the boundary-avoid logic (origin length 4). -/
def boundaryState : MState :=
  { initState 0 with
      origin := [song 1, song 2, song 3, song 4]
      active := [song 1, song 2, song 3, song 4] }

/-- Shuffle oracle for the C5 counterexample: the first shuffle call
yields [3,1,2,4] (a permutation), every later call restores the
identity order (also a permutation of its input). -/
def boundaryShuffles : Nat → List MusicInfo → List MusicInfo :=
  fun k _ =>
    if k = 0 then [song 3, song 1, song 2, song 4]
    else [song 1, song 2, song 3, song 4]

/-- An FM state for the shuffle-rejection witness. -/
def fmShuffleState : MState :=
  { initState 0 with
      isFm := true
      fmMode := some "AI DJ"
      hasPlaylist := true
      playlist := [song 21, song 22]
      origin := [song 21, song 22]
      active := [song 21, song 22] }

/-- A playing state whose single track declares duration exactly
1000, for the duration-interpretation witness. -/
def durState : MState :=
  { initState 0 with
      state := .playing
      hasPlaylist := true
      playlist := [⟨9, 1000, "http://stream/9"⟩]
      origin := [⟨9, 1000, "http://stream/9"⟩]
      active := [⟨9, 1000, "http://stream/9"⟩] }

/-! Helper lemmas. -/

theorem avoidCountOf_pos (n : Nat) : 1 ≤ avoidCountOf n := by
  unfold avoidCountOf
  omega

theorem computeDuration_pos {d : Nat} (h : 0 < d) : 0 < computeDuration d := by
  unfold computeDuration
  split
  · exact Nat.div_pos (by omega) (by norm_num)
  · exact h

theorem playindex_set_state (s : MState) (st : PState) :
    playindex { s with state := st } = playindex s := rfl

theorem playCommonPre_playlist (s : MState) (u : String) :
    (playCommonPre s u).playlist = s.playlist := by
  unfold playCommonPre exitFmMode
  dsimp only
  split
  · split <;> rfl
  · rfl

theorem playCommonPre_hasPlaylist (s : MState) (u : String) :
    (playCommonPre s u).hasPlaylist = s.hasPlaylist := by
  unfold playCommonPre exitFmMode
  dsimp only
  split
  · split <;> rfl
  · rfl

theorem playCommonPre_shuffle (s : MState) (u : String) :
    (playCommonPre s u).shuffle = s.shuffle := by
  unfold playCommonPre exitFmMode
  dsimp only
  split
  · split <;> rfl
  · rfl

theorem playCommonPre_active (s : MState) (u : String) :
    (playCommonPre s u).active = s.active := by
  unfold playCommonPre exitFmMode
  dsimp only
  split
  · split <;> rfl
  · rfl

theorem playCommonPre_playIdx (s : MState) (u : String) :
    (playCommonPre s u).playIdx = s.playIdx := by
  unfold playCommonPre exitFmMode
  dsimp only
  split
  · split <;> rfl
  · rfl

theorem playCommonPre_nextScheduled (s : MState) (u : String) :
    (playCommonPre s u).nextScheduled = false := by
  unfold playCommonPre exitFmMode
  dsimp only
  split
  · split <;> rfl
  · rfl

theorem playindex_playCommonPre (s : MState) (u : String) :
    playindex (playCommonPre s u) = playindex s := by
  unfold playindex
  rw [playCommonPre_shuffle, playCommonPre_active, playCommonPre_playIdx,
    playCommonPre_playlist]

theorem playCommonPost_nextScheduled (s : MState) :
    (playCommonPost s).nextScheduled = s.nextScheduled := by
  unfold playCommonPost
  dsimp only
  split
  · split
    · split <;> rfl
    · rfl
  · rfl

theorem playCommonPost_dur (s : MState) {m : MusicInfo}
    (hp : s.hasPlaylist = true) (hm : s.playlist[playindex s]? = some m)
    (hd : 0 < m.duration) :
    (playCommonPost s).dur = computeDuration m.duration := by
  have hne : s.playlist.isEmpty = false := by
    cases hl : s.playlist with
    | nil => rw [hl] at hm; simp at hm
    | cons a l => rfl
  unfold playCommonPost
  dsimp only
  rw [playindex_set_state] at *
  simp only [hp, hne, Bool.not_false, Bool.and_self, if_true, hm, hd, if_pos]

theorem posIncr_nextScheduled (s : MState) :
    (posIncr s).nextScheduled = s.nextScheduled := by
  unfold posIncr
  split <;> rfl

theorem durResolve_nextScheduled (s : MState) (o : TickObs) :
    (durResolve s o).nextScheduled = s.nextScheduled := by
  unfold durResolve
  dsimp only
  split_ifs <;> rfl

theorem tickMid_nextScheduled (s : MState) (o : TickObs) :
    (tickMid s o).nextScheduled = s.nextScheduled := by
  unfold tickMid
  rw [durResolve_nextScheduled, posIncr_nextScheduled]

theorem tickMid_timing (s : MState) (o : TickObs) :
    (tickMid s o).timing = s.timing := by
  unfold tickMid durResolve posIncr
  dsimp only
  split_ifs <;> rfl

theorem tickMid_beforeState (s : MState) (o : TickObs) :
    (tickMid s o).beforeState = s.beforeState := by
  unfold tickMid durResolve posIncr
  dsimp only
  split_ifs <;> rfl

theorem tickDecide_sched_state (t : MState) (o : TickObs)
    (h : t.nextScheduled = true) :
    (tickDecide t o).1.nextScheduled = true := by
  unfold tickDecide
  cases hb : t.beforeState with
  | none => exact h
  | some bs =>
    dsimp only
    split_ifs <;> simp_all

theorem tickDecide_sched_action (t : MState) (o : TickObs)
    (h : t.nextScheduled = true) :
    ∀ a, (tickDecide t o).2 = some a → isSchedAction a = false := by
  intro a ha
  unfold tickDecide at ha
  cases hb : t.beforeState with
  | none => rw [hb] at ha; simp at ha
  | some bs =>
    rw [hb] at ha
    dsimp only at ha
    split_ifs at ha <;> simp_all [isSchedAction]
    rw [← ha]

theorem interval_sched_state (s : MState) (o : TickObs)
    (h : s.nextScheduled = true) :
    (interval s o).1.nextScheduled = true := by
  unfold interval
  split
  · exact h
  · split
    · rw [show ((posIncr s, (none : Option TickAction))).1 = posIncr s from rfl,
        posIncr_nextScheduled]
      exact h
    · exact tickDecide_sched_state (tickMid s o) o
        ((tickMid_nextScheduled s o).trans h)

theorem interval_sched_action (s : MState) (o : TickObs)
    (h : s.nextScheduled = true) :
    ∀ a, (interval s o).2 = some a → isSchedAction a = false := by
  unfold interval
  split
  · intro a ha; simp at ha
  · split
    · intro a ha; simp at ha
    · exact tickDecide_sched_action (tickMid s o) o
        ((tickMid_nextScheduled s o).trans h)

theorem tickTrace_keeps_sched (s : MState) (os : List TickObs)
    (h : s.nextScheduled = true) :
    (tickTrace s os).2.filter isSchedAction = [] ∧
    (tickTrace s os).1.nextScheduled = true := by
  induction os generalizing s with
  | nil => exact ⟨rfl, h⟩
  | cons o os ih =>
    have h1 := interval_sched_state s o h
    have h2 := interval_sched_action s o h
    obtain ⟨ih1, ih2⟩ := ih (interval s o).1 h1
    constructor
    · show (((interval s o).2.toList ++ (tickTrace (interval s o).1 os).2).filter
        isSchedAction) = []
      rw [List.filter_append, ih1, List.append_nil]
      cases ha : (interval s o).2 with
      | none => rfl
      | some a =>
        have := h2 a ha
        simp [Option.toList, this]
    · exact ih2

theorem smartRetryLoop_spec (lastSongs : List MusicInfo) (avoid : Nat)
    (cand : Nat → List MusicInfo) :
    ∀ fuel k, ∃ j, k ≤ j ∧ j ≤ k + fuel ∧
      smartRetryLoop lastSongs avoid cand k fuel = cand j ∧
      (∀ i, k ≤ i → i < j →
        hasOverlap ((cand i).take avoid) lastSongs = true) ∧
      (j < k + fuel → hasOverlap ((cand j).take avoid) lastSongs = false) := by
  intro fuel
  induction fuel with
  | zero =>
    intro k
    exact ⟨k, le_refl _, by omega, rfl, by omega, by omega⟩
  | succ n ih =>
    intro k
    by_cases h : hasOverlap ((cand k).take avoid) lastSongs = true
    · obtain ⟨j, h1, h2, h3, h4, h5⟩ := ih (k + 1)
      refine ⟨j, by omega, by omega, ?_, ?_, ?_⟩
      · rw [smartRetryLoop, if_pos h]
        exact h3
      · intro i hki hij
        rcases Nat.eq_or_lt_of_le hki with rfl | hlt
        · exact h
        · exact h4 i hlt hij
      · intro hj
        exact h5 (by omega)
    · refine ⟨k, le_refl _, by omega, ?_, by omega, fun _ => by simpa using h⟩
      rw [smartRetryLoop, if_neg h]

theorem setShuffle_nextScheduled (s : MState) (b : Bool)
    (σ : Nat → List MusicInfo → List MusicInfo) :
    (setShuffle s b σ).1.nextScheduled = s.nextScheduled := by
  unfold setShuffle
  dsimp only
  repeat' split
  all_goals rfl

/-! Claim theorems. -/

/-- C1: the claim states that with shuffle disabled every Next call
sets the current index to (position+1) mod len and plays the track at
that new index, cycling back to 0 after len calls.  Evaluating the
code at a freshly loaded three-track playlist refutes this: because
the playindex setter (media_player.py:222-225) is a no-op, both the
first and the second Next play the track at index 1 (song 2) and the
stored index never leaves 0, instead of advancing to index 2 and
playing song 3 on the second call. -/
theorem claim_C1 :
    (mpNextTrack loadedThree 0 []).played = some (song 2) ∧
    (mpNextTrack loadedThree 0 []).st.playIdx = 0 ∧
    playindex (mpNextTrack loadedThree 0 []).st = 0 ∧
    (mpNextTrack (mpNextTrack loadedThree 0 []).st 0 []).played = some (song 2) ∧
    (mpNextTrack (mpNextTrack loadedThree 0 []).st 0 []).st.playIdx = 0 ∧
    playindex (mpNextTrack (mpNextTrack loadedThree 0 []).st 0 []).st = 0 := by
  decide

/-- C2: the claim states that after any sequence of Load and
SetShuffle operations the active order is a permutation of the
originally loaded playlist.  Evaluating the code on Load of five
tracks followed by SetShuffle(true) (with the identity permutation as
the shuffle outcome) refutes this: the ordinary load path
(browse_media.py:1024-1027) never writes _playlist_origin, so
_smart_shuffle rebuilds _playlist_active from the stale empty origin
list and the active order ends up empty, not a permutation of the
five loaded tracks. -/
theorem claim_C2 :
    (setShuffle loadedFive true idShuffle).2 = none ∧
    (setShuffle loadedFive true idShuffle).1.playlist = loadedFive.playlist ∧
    (setShuffle loadedFive true idShuffle).1.active.map MusicInfo.id = [] ∧
    loadedFive.playlist.map MusicInfo.id = [1, 2, 3, 4, 5] ∧
    ¬ ((setShuffle loadedFive true idShuffle).1.active.map MusicInfo.id).Perm
        (loadedFive.playlist.map MusicInfo.id) := by
  decide

/-- C4: the claim states that SetShuffle(true) on a non-empty
playlist keeps the current track and puts it at position 0 of the new
active order.  Evaluating the code refutes this for a playlist loaded
through the ordinary play path: the current track before the call is
song 1, but after SetShuffle(true) the new active order is empty
(_playlist_origin was never populated by the load), so no track at
all sits at position 0. -/
theorem claim_C4 :
    loadedFive.playlist[playindex loadedFive]? = some (song 1) ∧
    (setShuffle loadedFive true idShuffle).1.active = [] ∧
    (setShuffle loadedFive true idShuffle).1.active[0]? = none := by
  decide

/-- C6: while FM radio mode is active, a SetShuffle(true) request is
rejected with the user-visible InvalidShuffleWhileRadio error
(media_player.py:475-482 raises HomeAssistantError) and the
persistent shuffle flag is forced to false. -/
theorem claim_C6 (s : MState) (σ : Nat → List MusicInfo → List MusicInfo)
    (h : s.isFm = true) :
    setShuffle s true σ =
      ({ s with shuffle := false }, some ShuffleError.invalidShuffleWhileRadio) ∧
    (setShuffle s true σ).1.shuffle = false := by
  have he : setShuffle s true σ =
      ({ s with shuffle := false }, some ShuffleError.invalidShuffleWhileRadio) := by
    simp [setShuffle, h]
  exact ⟨he, by rw [he]⟩

theorem claim_C6_witness :
    setShuffle fmShuffleState true idShuffle =
      ({ fmShuffleState with shuffle := false },
        some ShuffleError.invalidShuffleWhileRadio) ∧
    (setShuffle fmShuffleState true idShuffle).1.shuffle = false :=
  claim_C6 fmShuffleState idShuffle rfl

/-- C7: the claim states that after loading a 5-track FM playlist,
three advances trigger exactly one refill fetch (at remaining == 2).
Evaluating the code refutes this: the playindex setter is a no-op, so
_play_index stays 0 across all three advances, remaining stays at
5 - 0 - 1 = 4 > 2, and _async_preload_fm_tracks issues no fetch at
all. -/
theorem claim_C7 :
    fmFive.playlist.length = 5 ∧
    fmFive.isFm = true ∧
    fmFive.playIdx = 0 ∧
    fmStep1.fetched = false ∧
    fmStep2.fetched = false ∧
    fmStep3.fetched = false ∧
    fmStep3.st.isFm = true ∧
    fmStep3.st.playIdx = 0 ∧
    fmStep3.st.playlist.length - fmStep3.st.playIdx - 1 = 4 := by
  decide

/-- C8: with FM mode active and a current song id known, the trash
operation reports the id to the catalogue feedback API and then
advances to the next track unconditionally — the result state is the
advanced one and the advanced flag is true for success and failure
alike; only the notification depends on the feedback outcome. -/
theorem claim_C8 (s : MState) (success : Bool) (rand : Nat)
    (fmFetch : List MusicInfo) (sid : Nat)
    (h1 : s.isFm = true) (h2 : s.currentSongId = some sid) :
    fmTrash s success rand fmFetch =
      ⟨(mpNextTrack s rand fmFetch).st, some sid, true, success⟩ := by
  simp [fmTrash, h1, h2]

theorem claim_C8_witness :
    fmTrash fmWithCurrent false 0 [] =
      ⟨(mpNextTrack fmWithCurrent 0 []).st, some 11, true, false⟩ ∧
    fmTrash fmWithCurrent true 0 [] =
      ⟨(mpNextTrack fmWithCurrent 0 []).st, some 11, true, true⟩ :=
  ⟨claim_C8 fmWithCurrent false 0 [] 11 rfl rfl,
    claim_C8 fmWithCurrent true 0 [] 11 rfl rfl⟩

/-- C9: starting FM mode when the catalogue returns no tracks does
not enter radio mode: async_play_fm (media_player.py:586-591) backs
out, leaving the FM flag false, the mode name nil, and the playlist
state (playlist presence, playlist, origin, active, index) exactly as
before the call. -/
theorem claim_C9 (s : MState) (modeName : Option String) :
    (playFm s modeName []).isFm = false ∧
    (playFm s modeName []).fmMode = none ∧
    (playFm s modeName []).playlist = s.playlist ∧
    (playFm s modeName []).hasPlaylist = s.hasPlaylist ∧
    (playFm s modeName []).origin = s.origin ∧
    (playFm s modeName []).active = s.active ∧
    (playFm s modeName []).playIdx = s.playIdx := by
  unfold playFm
  dsimp only
  split_ifs <;> exact ⟨rfl, rfl, rfl, rfl, rfl, rfl, rfl⟩

/-- C10: everywhere the current track's declared duration is turned
into the player duration — the tick handler (durResolve), Play
(mpPlayUrl) and radio start (playFm) — the conversion is
computeDuration: a value strictly greater than 1000 is treated as
milliseconds and integer-divided by 1000, a value of 1000 or less is
used unchanged; in particular a declared duration of exactly 1000
yields 1000 seconds, not 1. -/
theorem claim_C10 :
    (∀ d, computeDuration d = if 1000 < d then d / 1000 else d) ∧
    computeDuration 1000 = 1000 ∧
    computeDuration 1000 ≠ 1 ∧
    (∀ s o m, s.hasPlaylist = true → s.playlist[playindex s]? = some m →
      0 < m.duration → (durResolve s o).dur = computeDuration m.duration) ∧
    (∀ s u m, s.hasPlaylist = true → s.playlist[playindex s]? = some m →
      0 < m.duration → (mpPlayUrl s u).dur = computeDuration m.duration) ∧
    (∀ s modeName first rest, 0 < first.duration →
      (playFm s modeName (first :: rest)).dur = computeDuration first.duration) := by
  refine ⟨fun d => rfl, rfl, by decide, ?_, ?_, ?_⟩
  · intro s o m hp hm hd
    have hne : s.playlist.isEmpty = false := by
      cases hl : s.playlist
      · rw [hl] at hm; simp at hm
      · rfl
    simp only [durResolve, hp, hne, Bool.not_false, Bool.and_self, if_true, hm]
    rw [if_pos (computeDuration_pos hd)]
  · intro s u m hp hm hd
    have hp2 : (playCommonPre s u).hasPlaylist = true :=
      (playCommonPre_hasPlaylist s u).trans hp
    have hm2 : (playCommonPre s u).playlist[playindex (playCommonPre s u)]? =
        some m := by
      rw [playCommonPre_playlist, playindex_playCommonPre]
      exact hm
    exact playCommonPost_dur (playCommonPre s u) hp2 hm2 hd
  · intro s modeName first rest hd
    unfold playFm
    dsimp only
    split_ifs <;> simp_all

theorem claim_C10_witness :
    (durResolve durState clockObs).dur = computeDuration 1000 ∧
    (mpPlayUrl durState "http://stream/9").dur = computeDuration 1000 ∧
    (playFm (initState 0) (some "AI DJ") [⟨9, 1000, "http://stream/9"⟩]).dur =
      computeDuration 1000 ∧
    computeDuration 1000 = 1000 :=
  ⟨claim_C10.2.2.2.1 durState clockObs ⟨9, 1000, "http://stream/9"⟩ rfl rfl
      (by decide),
    claim_C10.2.2.2.2.1 durState "http://stream/9" ⟨9, 1000, "http://stream/9"⟩
      rfl rfl (by decide),
    claim_C10.2.2.2.2.2 (initState 0) (some "AI DJ") ⟨9, 1000, "http://stream/9"⟩
      [] (by decide),
    claim_C10.2.1⟩

/-- C3: once a tick in the playing state observes the advance window
(previous duration known and positive, delta = duration - position
within the threshold max(1, -offset+1), duration above 1) with no
advance yet scheduled, it emits exactly one scheduling action —
immediate when delta + offset ≤ 0, delayed by delta + offset seconds
otherwise — and sets the guard; once the guard is set, no later tick
ever emits another scheduling action (the defensive device-off
advance of media_player.py:175-182 is a separate path and not a
scheduled advance) and ticks never clear the guard; the guard is
cleared (only) by the track-change path async_play_media, while
SetShuffle leaves it untouched. -/
theorem claim_C3 :
    (∀ s o bs, s.state = PState.playing → o.playerExists = true →
      (tickMid s o).beforeState = some bs → 0 < bs.bsDur →
      tickDelta (tickMid s o) ≤ triggerThreshold s.timing →
      1 < (tickMid s o).dur → s.nextScheduled = false →
      interval s o =
        ({ tickMid s o with nextScheduled := true },
          some (if tickDelta (tickMid s o) + s.timing ≤ 0 then TickAction.schedNow
            else TickAction.schedLater (tickDelta (tickMid s o) + s.timing)))) ∧
    (∀ s os, s.nextScheduled = true →
      (tickTrace s os).2.filter isSchedAction = [] ∧
      (tickTrace s os).1.nextScheduled = true) ∧
    (∀ s u, (mpPlayUrl s u).nextScheduled = false) ∧
    (∀ s b σ, (setShuffle s b σ).1.nextScheduled = s.nextScheduled) := by
  refine ⟨?_, tickTrace_keeps_sched, ?_, setShuffle_nextScheduled⟩
  · intro s o bs h1 h2 hb hbd hdel hdur h7
    unfold interval
    rw [if_neg (by rw [h1]; exact fun hc => hc rfl)]
    rw [h2]
    rw [if_neg (by simp)]
    unfold tickDecide
    simp only [hb]
    rw [tickMid_timing]
    rw [if_pos (show 0 < bs.bsDur ∧
      tickDelta (tickMid s o) ≤ triggerThreshold s.timing ∧
      1 < (tickMid s o).dur from ⟨hbd, hdel, hdur⟩)]
    rw [tickMid_nextScheduled, h7]
    split_ifs <;> simp_all
  · intro s u
    unfold mpPlayUrl
    rw [playCommonPost_nextScheduled, playCommonPre_nextScheduled]

theorem claim_C3_witness :
    interval clockState clockObs =
      ({ tickMid clockState clockObs with nextScheduled := true },
        some (if tickDelta (tickMid clockState clockObs) + clockState.timing ≤ 0
          then TickAction.schedNow
          else TickAction.schedLater
            (tickDelta (tickMid clockState clockObs) + clockState.timing))) ∧
    (tickTrace clockStateSched [clockObs, clockObs]).2.filter isSchedAction = [] ∧
    (tickTrace clockStateSched [clockObs, clockObs]).1.nextScheduled = true ∧
    (mpPlayUrl clockStateSched "http://stream/7").nextScheduled = false ∧
    (setShuffle clockStateSched false idShuffle).1.nextScheduled =
      clockStateSched.nextScheduled :=
  ⟨claim_C3.1 clockState clockObs ⟨198, 200⟩ rfl rfl
      (by rw [tickMid_beforeState]; decide)
      (by decide)
      (by simp [tickDelta, tickMid, durResolve, posIncr, clockState, clockObs,
            clockTrack, initState, computeDuration, playindex, triggerThreshold]
          norm_num)
      (by decide)
      rfl,
    (claim_C3.2.1 clockStateSched [clockObs, clockObs] rfl).1,
    (claim_C3.2.1 clockStateSched [clockObs, clockObs] rfl).2,
    claim_C3.2.2.1 clockStateSched "http://stream/7",
    claim_C3.2.2.2 clockStateSched false idShuffle⟩

/-- C5 (amended: truncation instead of round): for playlists of
length > 3, _smart_shuffle uses avoidCount = clamp(trunc(length *
0.4), 1, 5) — written min 5 (max 1 (2·length / 5)) with Nat floor
division — captures the last avoidCount tracks of the previous
active order, and its result is some shuffle candidate j ≤ 10 such
that every earlier candidate's first avoidCount tracks overlapped
the captured set (that is what forced each reshuffle) and, unless
the 10-retry budget was exhausted (j = 10), candidate j itself is
overlap-free. -/
theorem claim_C5 (s : MState) (σ : Nat → List MusicInfo → List MusicInfo)
    (h : 3 < s.origin.length) :
    ∃ j, j ≤ 10 ∧
      smartShuffle s σ = shuffleCandidates σ s.origin j ∧
      (∀ i, i < j →
        hasOverlap
          ((shuffleCandidates σ s.origin i).take
            (min 5 (max 1 (2 * s.origin.length / 5))))
          (s.active.drop
            (s.active.length - min 5 (max 1 (2 * s.origin.length / 5)))) =
          true) ∧
      (j < 10 →
        hasOverlap
          ((shuffleCandidates σ s.origin j).take
            (min 5 (max 1 (2 * s.origin.length / 5))))
          (s.active.drop
            (s.active.length - min 5 (max 1 (2 * s.origin.length / 5)))) =
          false) := by
  unfold smartShuffle avoidCountOf
  rw [if_neg (by omega)]
  dsimp only
  cases hae : s.active with
  | nil =>
    refine ⟨0, by omega, by simp, by omega, ?_⟩
    intro _
    simp [hasOverlap]
  | cons a rest =>
    have hlen : 0 < ((a :: rest).drop
        ((a :: rest).length - min 5 (max 1 (2 * s.origin.length / 5)))).length := by
      rw [List.length_drop]
      have : 0 < (a :: rest).length := by simp
      omega
    have hlastne : ((a :: rest).drop
        ((a :: rest).length - min 5 (max 1 (2 * s.origin.length / 5)))).isEmpty =
        false := by
      cases hdrop : (a :: rest).drop
          ((a :: rest).length - min 5 (max 1 (2 * s.origin.length / 5))) with
      | nil => rw [hdrop] at hlen; simp at hlen
      | cons x xs => rfl
    simp only [List.isEmpty_cons, Bool.not_false, if_true, hlastne,
      Bool.false_eq_true, if_false]
    obtain ⟨j, hj0, hj10, heq, hall, hend⟩ :=
      smartRetryLoop_spec
        ((a :: rest).drop
          ((a :: rest).length - min 5 (max 1 (2 * s.origin.length / 5))))
        (min 5 (max 1 (2 * s.origin.length / 5)))
        (shuffleCandidates σ s.origin) 10 0
    exact ⟨j, by omega, heq, fun i hi => hall i (Nat.zero_le i) hi,
      fun hj => hend (by omega)⟩

theorem claim_C5_witness :
    ∃ j, j ≤ 10 ∧
      smartShuffle boundaryState boundaryShuffles =
        shuffleCandidates boundaryShuffles boundaryState.origin j ∧
      (∀ i, i < j →
        hasOverlap
          ((shuffleCandidates boundaryShuffles boundaryState.origin i).take
            (min 5 (max 1 (2 * boundaryState.origin.length / 5))))
          (boundaryState.active.drop
            (boundaryState.active.length -
              min 5 (max 1 (2 * boundaryState.origin.length / 5)))) = true) ∧
      (j < 10 →
        hasOverlap
          ((shuffleCandidates boundaryShuffles boundaryState.origin j).take
            (min 5 (max 1 (2 * boundaryState.origin.length / 5))))
          (boundaryState.active.drop
            (boundaryState.active.length -
              min 5 (max 1 (2 * boundaryState.origin.length / 5)))) = false) :=
  claim_C5 boundaryState boundaryShuffles (by decide)

/-- C5 counterexample to the claim as stated (with round): on a
4-track playlist the code truncates 4 · 0.4 = 1.6 to avoidCount 1,
while the claim's clamp(round(1.6), 1, 5) gives 2.  With the
permutation oracle boundaryShuffles (both of whose outcomes are
genuine permutations of their inputs, as the first two conjuncts
check), the code accepts the first candidate [3,1,2,4] (its first 1
track avoids the captured {4}), whereas the claimed algorithm
rejects it (its first 2 tracks [3,1] meet the captured {3,4}) and
reshuffles to [1,2,3,4]: the two disagree. -/
theorem claim_C5_counterexample :
    (boundaryShuffles 0 [song 1, song 2, song 3, song 4]).Perm
      [song 1, song 2, song 3, song 4] ∧
    (boundaryShuffles 1 [song 3, song 1, song 2, song 4]).Perm
      [song 3, song 1, song 2, song 4] ∧
    smartShuffle boundaryState boundaryShuffles =
      [song 3, song 1, song 2, song 4] ∧
    specBoundaryShuffleRound boundaryState.origin boundaryState.active
      boundaryShuffles = [song 1, song 2, song 3, song 4] ∧
    smartShuffle boundaryState boundaryShuffles ≠
      specBoundaryShuffleRound boundaryState.origin boundaryState.active
        boundaryShuffles ∧
    avoidCountOf 4 = 1 ∧
    specAvoidCountRound 4 = 2 := by
  have hround : specAvoidCountRound 4 = 2 := by
    unfold specAvoidCountRound
    norm_num [round_eq]
    decide
  have hspec : specBoundaryShuffleRound boundaryState.origin boundaryState.active
      boundaryShuffles = [song 1, song 2, song 3, song 4] := by
    unfold specBoundaryShuffleRound
    rw [show boundaryState.origin.length = 4 from rfl, hround]
    decide
  refine ⟨by decide, by decide, by decide, hspec, ?_, by decide, hround⟩
  rw [hspec]
  decide

end NCloudMusic
